import Mathlib

/-!
# Verification of the "Tag All+" pyRevit pushbutton script

A shallow embedding of `Tag All+.pushbutton/script.py`, a tool that places
annotation tags on building-model elements in selected Revit views, together
with proofs of the behavioural properties stated in the design document.

The Revit host, the pyRevit dialog toolkit and the `config` module are
external collaborators: they are represented by an environment record `Env`
of oracles (element collections per category and view, loaded tag families,
user dialog answers, the toggle-settings loader, and outcomes of tag-creation
calls).  The mutable document plus the script's own module-level state are
threaded explicitly as a `RunState`.  Python exceptions are modelled by the
`Outcome.exn` constructor carrying the message; `raise SystemExit` (the user
cancelling a selection dialog) is the separate constructor `Outcome.sysExit`,
which — as in Python — is *not* caught by an `except Exception` handler.

Ghost observability fields of `RunState` (they influence no behaviour):
`promptCount`/`promptedCats` record the missing-tag-family prompts shown,
`configCalls` counts calls to the toggle-settings loader, `txnStarts` counts
`Transaction.Start()` calls and `generalErrors` counts lines printed by the
top-level `except Exception` handler.
-/

/-- A 3D point / vector, as used for bounding-box corners and tag placement.
Coordinates are exact rationals (the script does no float-specific tricks). -/
structure XYZ where
  x : ℚ
  y : ℚ
  z : ℚ
deriving DecidableEq

/-- Arithmetic pieces of `bbox.Min + q * (bbox.Max - bbox.Min)`. -/
def XYZ.add (a b : XYZ) : XYZ := ⟨a.x + b.x, a.y + b.y, a.z + b.z⟩

def XYZ.sub (a b : XYZ) : XYZ := ⟨a.x - b.x, a.y - b.y, a.z - b.z⟩

def XYZ.smul (q : ℚ) (a : XYZ) : XYZ := ⟨q * a.x, q * a.y, q * a.z⟩

/-- An element's axis-aligned bounding box (`element.get_BoundingBox(None)`). -/
structure BBox where
  min : XYZ
  max : XYZ
deriving DecidableEq

/-- A Revit category: stable id, display name, and the
`AllowsBoundParameters` flag consulted by the category selector. -/
structure Category where
  id : Nat
  name : String
  allowsBoundParameters : Bool
deriving DecidableEq

/-- A placed model element.  `category = none` models a null `.Category`
(dereferencing it raises, as in Python).  `bbox = none` models
`get_BoundingBox` returning null. -/
structure Element where
  id : Nat
  category : Option Category
  bbox : Option BBox
deriving DecidableEq

/-- The view types the script distinguishes. -/
inductive RVViewType where
  | FloorPlan
  | Elevation
  | Section
  | Other
deriving DecidableEq

/-- A Revit view. -/
structure RView where
  id : Nat
  name : String
  viewType : RVViewType
  isTemplate : Bool
deriving DecidableEq

/-- The `TagMode` argument of `IndependentTag.Create`. -/
inductive TagMode where
  | TM_ADDBY_CATEGORY
  | TM_ADDBY_MULTICATEGORY
  | TM_ADDBY_MATERIAL
deriving DecidableEq

/-- The `TagOrientation` argument of `IndependentTag.Create`. -/
inductive TagOrientation where
  | Horizontal
  | Vertical
deriving DecidableEq

/-- An `IndependentTag`.  `taggedIds` are the element ids returned by
`GetTaggedLocalElements` (version > 2021); `GetTaggedLocalElement`
(version ≤ 2021) returns its head, or null when empty.  `readFails = true`
models a tag whose tagged-element read raises (caught per tag by the
script). -/
structure Tag where
  id : Nat
  viewId : Nat
  taggedIds : List Nat
  text : String
  leader : Bool
  mode : TagMode
  orientation : TagOrientation
  point : XYZ
  readFails : Bool
deriving DecidableEq

/-- Modelled from the spec: the repository's `config` module (not under the
sources given) supplies "toggle flags {visibility check, blank-tag deletion,
tag-windows-in-plan}"; the script reads them under the dictionary keys
`toggle_visibility`, `check_blank_tag` and `tag_windows_in_plan`. -/
structure ToggleSettings where
  toggle_visibility : Bool
  check_blank_tag : Bool
  tag_windows_in_plan : Bool
deriving DecidableEq

/-- Result of processing one element inside the per-element `try`:
`done` = fall through / `continue` to the next element; `stop` = the
`return` taken when the user answers "No" to the missing-tag-family prompt;
`err` = an exception reaching the per-element `except Exception` handler. -/
inductive ElemRes where
  | done
  | stop
  | err (msg : String)
deriving DecidableEq

/-- Result of a Python-level call: normal return, an `Exception`, or
`SystemExit` (which `except Exception` does not catch). -/
inductive Outcome (α : Type) where
  | ok (a : α)
  | exn (msg : String)
  | sysExit
deriving DecidableEq

/-- The mutable state threaded through a run: the document's tags, the
script's module-level globals (`ignored_tag_types`, `element_cache`), the
console log, and ghost counters for dialogs shown, toggle-settings loads,
transaction starts and top-level error reports. -/
structure RunState where
  tags : List Tag
  nextTagId : Nat
  ignored_tag_types : List Nat
  element_cache : List (Nat × List Element)
  log : List String
  promptCount : Nat
  promptedCats : List Nat
  configCalls : Nat
  txnStarts : Nat
  generalErrors : Nat
deriving DecidableEq

/-- The external world: Revit host queries, the configuration module and the
user's dialog answers.  `toggleLoads n` is the result of the `n`-th call to
`config.load_toggle_settings()` (it may raise); `alertAnswer n` is the
user's answer to the `n`-th missing-tag-family alert; the two selection
oracles receive the list of names shown in the dialog and return the
confirmed selection, or `none` for a cancel. -/
structure Env where
  versionNumber : Nat
  docCategories : List Category
  configAllowList : List String
  elementsOfCategory : Nat → List Element
  allViews : List RView
  viewElems : Nat → Nat → List Nat
  tagTypeLoadedCats : List Nat
  alertAnswer : Nat → String
  catSelection : List String → Option (List String)
  viewSelection : List String → Option (List String)
  toggleLoads : Nat → Except String ToggleSettings
  createOk : Nat → Nat → Bool
  tagTextFor : Nat → Nat → String

/-- Function `is_tag_type_loaded`: whether any tag `ElementType` of the given
category is loaded in the document. -/
def is_tag_type_loaded (env : Env) (built_in_category : Nat) : Bool :=
  decide (built_in_category ∈ env.tagTypeLoadedCats)

/-- Function `is_element_visible_in_view`: the element appears in the view's own
collection for its category.  The caller has already dereferenced
`element.Category`. -/
def is_element_visible_in_view (env : Env) (view : RView) (c : Category)
    (e : Element) : Bool :=
  decide (e.id ∈ env.viewElems view.id c.id)

/-- Function `get_projected_center_point`: `None` when the bounding box is absent,
otherwise `bbox.Min + 0.5 * (bbox.Max - bbox.Min)`. -/
def get_projected_center_point (e : Element) : Option XYZ :=
  match e.bbox with
  | none => none
  | some bb => some (XYZ.add bb.min (XYZ.smul (1 / 2) (XYZ.sub bb.max bb.min)))

/-- Line 95's `not tag.TagText.strip()`: the label is empty or consists of
whitespace only, i.e. Python's `strip` leaves the empty string. -/
def textIsBlank (t : String) : Bool := t.data.all Char.isWhitespace

/-- Spec-side midpoint of the two bounding-box corners, for comparison with
the code's `Min + 0.5 * (Max - Min)`. -/
def specMidpoint (a b : XYZ) : XYZ :=
  ⟨(a.x + b.x) / 2, (a.y + b.y) / 2, (a.z + b.z) / 2⟩

/-- Python-set insertion into the covered-id accumulator. -/
def addId (i : Nat) (l : List Nat) : List Nat :=
  if i ∈ l then l else l ++ [i]

/-- Lines 49–66: build `already_tagged_element_ids` from the view's existing
tags, branching on the Revit version, with the per-tag `try`/`except` that
logs and skips a tag whose read raises.  Returns the covered ids and the
log lines printed while building. -/
def coveredLoop (version : Nat) : List Tag → List Nat → List String →
    List Nat × List String
  | [], acc, lg => (acc, lg)
  | t :: rest, acc, lg =>
    if t.readFails then
      coveredLoop version rest acc (lg ++ ["Error processing tag: read failed"])
    else if version ≤ 2021 then
      match t.taggedIds with
      | [] => coveredLoop version rest acc lg
      | i :: _ => coveredLoop version rest (addId i acc) lg
    else
      coveredLoop version rest (t.taggedIds.foldl (fun a i => addId i a) acc) lg

/-- The set of element ids covered by the pre-existing tags of one view. -/
def coveredIds (version : Nat) (viewId : Nat) (allTags : List Tag) : List Nat :=
  (coveredLoop version (allTags.filter (fun t => t.viewId = viewId)) [] []).1

/-- Line 90's special-case test: the script calls `IndependentTag.Create`
with leader `True` exactly when the element's category is named "Windows",
the view is a floor plan and the window-in-plan toggle is on; the `else`
call site differs only in passing leader `False`. -/
def tagLeaderFlag (ts : ToggleSettings) (view : RView) (c : Category) : Bool :=
  decide (c.name = "Windows" ∧ view.viewType = RVViewType.FloorPlan ∧
    ts.tag_windows_in_plan = true)

/-- The tag produced by a successful `IndependentTag.Create` call on lines
91/93: both call sites pass `TM_ADDBY_CATEGORY` and `Horizontal` and differ
only in the leader flag. -/
def madeTag (env : Env) (ts : ToggleSettings) (view : RView) (c : Category)
    (e : Element) (center : XYZ) (s : RunState) : Tag :=
  { id := s.nextTagId, viewId := view.id, taggedIds := [e.id],
    text := env.tagTextFor view.id e.id, leader := tagLeaderFlag ts view c,
    mode := TagMode.TM_ADDBY_CATEGORY,
    orientation := TagOrientation.Horizontal,
    point := center, readFails := false }

/-- Lines 86–96: center-point computation, the `IndependentTag.Create`
call (leader variant for Windows in a floor plan with the toggle on),
and the blank-tag deletion.  A failing `Create` call raises. -/
def tagCreationStep (env : Env) (ts : ToggleSettings) (view : RView)
    (c : Category) (e : Element) (s : RunState) : ElemRes × RunState :=
  match get_projected_center_point e with
  | none => (ElemRes.done, s)
  | some center =>
    if env.createOk view.id e.id = false then
      (ElemRes.err "InvalidOperationException from IndependentTag.Create", s)
    else
      let tag := madeTag env ts view c e center s
      let s1 := { s with tags := s.tags ++ [tag], nextTagId := s.nextTagId + 1 }
      if ts.check_blank_tag = true ∧ textIsBlank tag.text = true then
        (ElemRes.done, { s1 with tags := s1.tags.filter (fun t => t.id ≠ tag.id) })
      else
        (ElemRes.done, s1)

/-- Lines 69–96, the body of the per-element `try`: skip if already covered,
optional visibility filter, the missing-tag-family prompt (answering "No"
executes the `return`; otherwise the category id is added to the global
`ignored_tag_types`), then tag creation.  A null `element.Category`
raises at its first dereference. -/
def processElement (env : Env) (ts : ToggleSettings) (view : RView)
    (covered : List Nat) (e : Element) (s : RunState) : ElemRes × RunState :=
  if e.id ∈ covered then (ElemRes.done, s)
  else
    match e.category with
    | none => (ElemRes.err "AttributeError: NoneType object has no attribute Id", s)
    | some c =>
      if ts.toggle_visibility = true ∧
          is_element_visible_in_view env view c e = false then
        (ElemRes.done, s)
      else if is_tag_type_loaded env c.id = false ∧
          c.id ∉ s.ignored_tag_types then
        let ans := env.alertAnswer s.promptCount
        let s1 := { s with promptCount := s.promptCount + 1,
                           promptedCats := s.promptedCats ++ [c.id] }
        if ans = "No" then (ElemRes.stop, s1)
        else
          tagCreationStep env ts view c e
            { s1 with ignored_tag_types := s1.ignored_tag_types ++ [c.id] }
      else
        tagCreationStep env ts view c e s

/-- Lines 68–100: the element loop with its `except Exception` handler —
an error is printed with the element's id and the loop continues; the
user's "No" (the `return`) ends the loop. -/
def processElements (env : Env) (ts : ToggleSettings) (view : RView)
    (covered : List Nat) : List Element → RunState → RunState
  | [], s => s
  | e :: rest, s =>
    match processElement env ts view covered e s with
    | (ElemRes.done, s') => processElements env ts view covered rest s'
    | (ElemRes.stop, s') => s'
    | (ElemRes.err m, s') =>
      processElements env ts view covered rest
        { s' with log := s'.log ++
            ["Error processing element ID " ++ toString e.id ++ ": " ++ m] }

/-- Lines 42–100, `tag_elements_in_view`: print the version, load the toggle
settings (this call is outside every `try` in the function, so a loader
failure escapes), build the covered set from the view's existing tags, then
run the element loop. -/
def tag_elements_in_view (env : Env) (view : RView) (elements : List Element)
    (s : RunState) : Outcome Unit × RunState :=
  let s0 := { s with log := s.log ++
      ["Running on Revit version: " ++ toString env.versionNumber] }
  let s1 := { s0 with configCalls := s0.configCalls + 1 }
  match env.toggleLoads s0.configCalls with
  | Except.error m => (Outcome.exn m, s1)
  | Except.ok ts =>
    let built := coveredLoop env.versionNumber
        (s1.tags.filter (fun t => t.viewId = view.id)) [] []
    let s2 := { s1 with log := s1.log ++ built.2 }
    (Outcome.ok (), processElements env ts view built.1 elements s2)

/-- The `for view in selected_views` loop inside the transaction. -/
def viewsLoop (env : Env) (elements : List Element) :
    List RView → RunState → Outcome Unit × RunState
  | [], s => (Outcome.ok (), s)
  | v :: vs, s =>
    match tag_elements_in_view env v elements s with
    | (Outcome.ok _, s') => viewsLoop env elements vs s'
    | (Outcome.exn m, s') => (Outcome.exn m, s')
    | (Outcome.sysExit, s') => (Outcome.sysExit, s')

/-- Every selected view is processed and none raises an exception that
escapes `tag_elements_in_view`. -/
def viewsAllOk (env : Env) (elements : List Element) :
    List RView → RunState → Bool
  | [], _ => true
  | v :: vs, s =>
    match tag_elements_in_view env v elements s with
    | (Outcome.ok _, s') => viewsAllOk env elements vs s'
    | (Outcome.exn _, _) => false
    | (Outcome.sysExit, _) => false

/-- Lines 163–174, `tag_elements_in_selected_views`: one transaction around
the view loop; `Commit` on success, `RollBack` (restoring the document's
tags) and re-raise when an `Exception` escapes.  A `SystemExit` would pass
the `except Exception` untouched. -/
def tag_elements_in_selected_views (env : Env) (views : List RView)
    (elements : List Element) (s : RunState) : Outcome Unit × RunState :=
  let s0 := { s with txnStarts := s.txnStarts + 1 }
  match viewsLoop env elements views s0 with
  | (Outcome.ok _, s1) => (Outcome.ok (), s1)
  | (Outcome.exn m, s1) => (Outcome.exn m, { s1 with tags := s.tags })
  | (Outcome.sysExit, s1) => (Outcome.sysExit, s1)

/-- The category names offered by the category-selection dialog: project
categories on the configured allow-list that support bound parameters.
`config.load_configs()` is `env.configAllowList` (configuration surface). -/
def categoryNamesShown (env : Env) : List String :=
  (env.docCategories.filter (fun c =>
    c.name ∈ env.configAllowList ∧ c.allowsBoundParameters = true)).map
    (fun c => c.name)

/-- Lines 104–121, `select_categories`: show the multi-select dialog; a
cancel raises `SystemExit` (which the surrounding `except Exception` does
not catch); otherwise resolve each chosen name through
`Categories.get_Item` (null when absent) and print the selection. -/
def select_categories (env : Env) (s : RunState) :
    Outcome (List (Option Category)) × RunState :=
  match env.catSelection (categoryNamesShown env) with
  | none => (Outcome.sysExit, s)
  | some names =>
    (Outcome.ok (names.map (fun n =>
        env.docCategories.find? (fun c => c.name = n))),
     { s with log := s.log ++
        ["Selected Categories: " ++ String.intercalate ", " names] })

/-- Python-dict assignment `element_cache[category.Id] = ...`. -/
def cacheInsert (k : Nat) (v : List Element)
    (m : List (Nat × List Element)) : List (Nat × List Element) :=
  (m.filter (fun p => p.1 ≠ k)) ++ [(k, v)]

/-- The body of `select_elements`'s loop with its `except` handler: a null
category from `get_Item` raises at `category.Id`; the handler logs and
re-raises, keeping the caches and logs of earlier iterations. -/
def selectElementsLoop (env : Env) :
    List (Option Category) → List Element → RunState →
    Outcome (List Element) × RunState
  | [], acc, s => (Outcome.ok acc, s)
  | none :: _, _, s =>
    (Outcome.exn "AttributeError: NoneType object has no attribute Id",
     { s with log := s.log ++
        ["Error in select_elements: AttributeError: NoneType object has no attribute Id"] })
  | some c :: rest, acc, s =>
    let ces := env.elementsOfCategory c.id
    let s' := { s with
      element_cache := cacheInsert c.id ces s.element_cache,
      log := s.log ++
        ["Collected elements for category " ++ c.name ++ ": " ++
          String.intercalate ", " (ces.map (fun e => toString e.id))] }
    selectElementsLoop env rest (acc ++ ces) s'

/-- Lines 125–138, `select_elements`: collect all non-type elements of each
selected category, cache them per category, and accumulate the flat list. -/
def select_elements (env : Env) (cats : List (Option Category))
    (s : RunState) : Outcome (List Element) × RunState :=
  selectElementsLoop env cats [] s

/-- Byte-wise lexicographic comparison of strings, used to model Python's
`sorted` over the view names (display order only). -/
def charsLe : List Char → List Char → Bool
  | [], _ => true
  | _ :: _, [] => false
  | a :: as, b :: bs =>
    if a.toNat < b.toNat then true
    else if b.toNat < a.toNat then false
    else charsLe as bs

def strLe (a b : String) : Bool := charsLe a.data b.data

def insSorted (n : String) : List String → List String
  | [] => [n]
  | m :: rest => if strLe n m then n :: m :: rest else m :: insSorted n rest

def sortNames (l : List String) : List String := l.foldr insSorted []

/-- The views offered by the view-selection dialog: non-template floor
plans, elevations and sections. -/
def availableViews (env : Env) : List RView :=
  env.allViews.filter (fun v =>
    (v.viewType = RVViewType.FloorPlan ∨ v.viewType = RVViewType.Elevation ∨
     v.viewType = RVViewType.Section) ∧ v.isTemplate = false)

/-- The sorted view names presented by the dialog. -/
def viewNamesShown (env : Env) : List String :=
  sortNames ((availableViews env).map (fun v => v.name))

/-- Lines 142–160, `select_views`: filter and sort the candidate views,
show the dialog (cancel raises `SystemExit`), return the available views
whose names were chosen, and print the selection. -/
def select_views (env : Env) (s : RunState) : Outcome (List RView) × RunState :=
  match env.viewSelection (viewNamesShown env) with
  | none => (Outcome.sysExit, s)
  | some names =>
    ((Outcome.ok ((availableViews env).filter (fun v => v.name ∈ names))),
     { s with log := s.log ++
        ["Selected Views: " ++ String.intercalate ", " names] })

/-- The top-level `except Exception` handler's print. -/
def logGeneralError (m : String) (s : RunState) : RunState :=
  { s with log := s.log ++ ["General Error: " ++ m],
           generalErrors := s.generalErrors + 1 }

/-- Lines 177–186, the top-level driver: selection → collection → selection,
then — only when both lists are non-empty — the transactional tagging.
`SystemExit` is swallowed silently; any other exception is reported as a
"General Error". -/
def runScript (env : Env) (s : RunState) : RunState :=
  match select_categories env s with
  | (Outcome.sysExit, s1) => s1
  | (Outcome.exn m, s1) => logGeneralError m s1
  | (Outcome.ok cats, s1) =>
    match select_elements env cats s1 with
    | (Outcome.sysExit, s2) => s2
    | (Outcome.exn m, s2) => logGeneralError m s2
    | (Outcome.ok elements, s2) =>
      match select_views env s2 with
      | (Outcome.sysExit, s3) => s3
      | (Outcome.exn m, s3) => logGeneralError m s3
      | (Outcome.ok views, s3) =>
        if elements ≠ [] ∧ views ≠ [] then
          match tag_elements_in_selected_views env views elements s3 with
          | (Outcome.ok _, s4) => s4
          | (Outcome.exn m, s4) => logGeneralError m s4
          | (Outcome.sysExit, s4) => s4
        else s3

/-! ### Concrete instances used in witnesses and counterexamples -/

def wDoors : Category := ⟨5, "Doors", true⟩

def wWindows : Category := ⟨6, "Windows", true⟩

def wBox : BBox := ⟨⟨0, 0, 0⟩, ⟨2, 4, 6⟩⟩

def wDoor : Element := ⟨10, some wDoors, some wBox⟩

def wWindow : Element := ⟨11, some wWindows, some wBox⟩

/-- An element whose `.Category` is null: any dereference raises. -/
def wNoCat : Element := ⟨7, none, none⟩

/-- An element without a bounding box. -/
def wNoBox : Element := ⟨12, some wDoors, none⟩

def wPlan1 : RView := ⟨1, "Plan 1", RVViewType.FloorPlan, false⟩

def wPlan2 : RView := ⟨2, "Plan 2", RVViewType.FloorPlan, false⟩

def wTS : ToggleSettings := ⟨false, false, false⟩

/-- Blank-tag deletion switched on. -/
def wTSblank : ToggleSettings := ⟨false, true, false⟩

/-- Window-in-plan handling switched on. -/
def wTSwin : ToggleSettings := ⟨false, false, true⟩

/-- The initial state: an untagged document, fresh script globals. -/
def wS : RunState := ⟨[], 100, [], [], [], 0, [], 0, 0, 0⟩

/-- A pre-existing tag in view 1 covering element 10. -/
def wTag10 : Tag := ⟨50, 1, [10], "D1", false, TagMode.TM_ADDBY_CATEGORY,
  TagOrientation.Horizontal, ⟨1, 2, 3⟩, false⟩

/-- A document whose view 1 already tags element 10. -/
def wS1 : RunState := { wS with tags := [wTag10] }

/-- A state in which category 5 is already approved. -/
def wSign : RunState := { wS with ignored_tag_types := [5] }

/-- A baseline world: one door (element 10) and one window (element 11),
both views available, tag families loaded, every dialog answered happily. -/
def wEnv : Env :=
  { versionNumber := 2023,
    docCategories := [wDoors, wWindows],
    configAllowList := ["Doors", "Windows"],
    elementsOfCategory := fun cid =>
      if cid = 5 then [wDoor] else if cid = 6 then [wWindow] else [],
    allViews := [wPlan1, wPlan2],
    viewElems := fun _ _ => [10, 11],
    tagTypeLoadedCats := [5, 6],
    alertAnswer := fun _ => "Yes",
    catSelection := fun _ => some ["Doors"],
    viewSelection := fun _ => some ["Plan 1"],
    toggleLoads := fun _ => Except.ok wTS,
    createOk := fun _ _ => true,
    tagTextFor := fun _ _ => "D1" }

/-- No tag family for any category; two views selected; the user declines
the first prompt and approves the second. -/
def wEnvC2 : Env :=
  { wEnv with tagTypeLoadedCats := [],
              viewSelection := fun _ => some ["Plan 1", "Plan 2"],
              alertAnswer := fun n => if n = 0 then "No" else "Yes" }

/-- Like `wEnvC2` but the user approves every prompt. -/
def wEnvC2y : Env := { wEnvC2 with alertAnswer := fun _ => "Yes" }

/-- The toggle-settings loader succeeds for the first view and raises for
the second. -/
def wEnvC3 : Env :=
  { wEnv with viewSelection := fun _ => some ["Plan 1", "Plan 2"],
              toggleLoads := fun n =>
                if n = 0 then Except.ok wTS
                else Except.error "config load failed" }

/-- Two selected views, everything else happy. -/
def wEnvC4 : Env :=
  { wEnv with viewSelection := fun _ => some ["Plan 1", "Plan 2"] }

/-- The user cancels the view-selection dialog. -/
def wEnvC6 : Env := { wEnv with viewSelection := fun _ => none }

/-- The host produces whitespace-only tag text and blank-tag deletion is
switched on. -/
def wEnvBlank : Env :=
  { wEnv with tagTextFor := fun _ _ => "  ",
              toggleLoads := fun _ => Except.ok wTSblank }

section Lemmas

/-- Tag creation and blank-tag deletion touch only `tags` and `nextTagId`. -/
lemma tagCreationStep_ctl (env : Env) (ts : ToggleSettings) (view : RView)
    (c : Category) (e : Element) (s : RunState) :
    ((tagCreationStep env ts view c e s).2).ignored_tag_types = s.ignored_tag_types ∧
    ((tagCreationStep env ts view c e s).2).log = s.log ∧
    ((tagCreationStep env ts view c e s).2).promptCount = s.promptCount ∧
    ((tagCreationStep env ts view c e s).2).promptedCats = s.promptedCats ∧
    ((tagCreationStep env ts view c e s).2).configCalls = s.configCalls ∧
    ((tagCreationStep env ts view c e s).2).txnStarts = s.txnStarts ∧
    ((tagCreationStep env ts view c e s).2).generalErrors = s.generalErrors ∧
    ((tagCreationStep env ts view c e s).2).element_cache = s.element_cache := by
  unfold tagCreationStep
  cases hgp : get_projected_center_point e <;> simp [hgp]
  split
  · simp
  · split <;> simp

/-- Any tag present after `tagCreationStep` was already present or is the
freshly created one, referencing exactly the processed element. -/
lemma tagCreationStep_tags (env : Env) (ts : ToggleSettings) (view : RView)
    (c : Category) (e : Element) (s : RunState) :
    ∀ t ∈ ((tagCreationStep env ts view c e s).2).tags,
      t ∈ s.tags ∨ t.taggedIds = [e.id] := by
  unfold tagCreationStep
  cases hgp : get_projected_center_point e <;> simp [hgp]
  · exact fun t ht => Or.inl ht
  · split
    · exact fun t ht => Or.inl ht
    · split <;> intro t ht
      · exact Or.inl (List.mem_filter.1 ht).1
      · rcases List.mem_append.1 ht with h | h
        · exact Or.inl h
        · rw [List.mem_singleton] at h; subst h
          exact Or.inr rfl

/-- Per-element processing never touches the log, the config-load counter,
the transaction counter, the error counter or the element cache. -/
lemma processElement_ctl (env : Env) (ts : ToggleSettings) (view : RView)
    (covered : List Nat) (e : Element) (s : RunState) :
    ((processElement env ts view covered e s).2).log = s.log ∧
    ((processElement env ts view covered e s).2).configCalls = s.configCalls ∧
    ((processElement env ts view covered e s).2).txnStarts = s.txnStarts ∧
    ((processElement env ts view covered e s).2).generalErrors = s.generalErrors ∧
    ((processElement env ts view covered e s).2).element_cache = s.element_cache := by
  unfold processElement
  split
  · simp
  · cases e.category with
    | none => simp
    | some c =>
      simp only []
      split
      · simp
      · split
        · split
          · simp
          · have h := tagCreationStep_ctl env ts view c e
              { s with promptCount := s.promptCount + 1,
                       promptedCats := s.promptedCats ++ [c.id],
                       ignored_tag_types := s.ignored_tag_types ++ [c.id] }
            simp_all
        · have h := tagCreationStep_ctl env ts view c e s
          simp_all

/-- Any tag present after `processElement` was already present, or tags the
processed element, which then was not in the covered set. -/
lemma processElement_tags (env : Env) (ts : ToggleSettings) (view : RView)
    (covered : List Nat) (e : Element) (s : RunState) :
    ∀ t ∈ ((processElement env ts view covered e s).2).tags,
      t ∈ s.tags ∨ (e.id ∉ covered ∧ t.taggedIds = [e.id]) := by
  unfold processElement
  split
  · exact fun t ht => Or.inl ht
  · rename_i hcov
    cases e.category with
    | none => exact fun t ht => Or.inl ht
    | some c =>
      simp only []
      split
      · exact fun t ht => Or.inl ht
      · split
        · split
          · exact fun t ht => Or.inl ht
          · intro t ht
            rcases tagCreationStep_tags env ts view c e _ t ht with h | h
            · exact Or.inl h
            · exact Or.inr ⟨hcov, h⟩
        · intro t ht
          rcases tagCreationStep_tags env ts view c e s t ht with h | h
          · exact Or.inl h
          · exact Or.inr ⟨hcov, h⟩

/-- The approved-categories set only ever grows. -/
lemma processElement_ignored_mono (env : Env) (ts : ToggleSettings)
    (view : RView) (covered : List Nat) (e : Element) (s : RunState) :
    ∀ x ∈ s.ignored_tag_types,
      x ∈ ((processElement env ts view covered e s).2).ignored_tag_types := by
  unfold processElement
  split
  · exact fun x hx => hx
  · cases e.category with
    | none => exact fun x hx => hx
    | some c =>
      simp only []
      split
      · exact fun x hx => hx
      · split
        · split
          · exact fun x hx => hx
          · intro x hx
            have h := (tagCreationStep_ctl env ts view c e
              { s with promptCount := s.promptCount + 1,
                       promptedCats := s.promptedCats ++ [c.id],
                       ignored_tag_types := s.ignored_tag_types ++ [c.id] }).1
            rw [h]
            exact List.mem_append_left _ hx
        · intro x hx
          rw [(tagCreationStep_ctl env ts view c e s).1]
          exact hx

/-- A category already in the approved set is never prompted for again:
its occurrence count in the ghost prompt trace does not change. -/
lemma processElement_prompted (env : Env) (ts : ToggleSettings)
    (view : RView) (covered : List Nat) (e : Element) (s : RunState)
    (x : Nat) (hx : x ∈ s.ignored_tag_types) :
    ((processElement env ts view covered e s).2).promptedCats.count x =
      s.promptedCats.count x := by
  unfold processElement
  split
  · rfl
  · cases e.category with
    | none => rfl
    | some c =>
      simp only []
      split
      · rfl
      · split
        · rename_i hprompt
          have hne : c.id ≠ x := fun h => hprompt.2 (h ▸ hx)
          split
          · simp [List.count_append, List.count_singleton, hne]
          · have h := (tagCreationStep_ctl env ts view c e
              { s with promptCount := s.promptCount + 1,
                       promptedCats := s.promptedCats ++ [c.id],
                       ignored_tag_types := s.ignored_tag_types ++ [c.id] }).2.2.2.1
            rw [h]
            simp [List.count_append, List.count_singleton, hne]
        · rw [(tagCreationStep_ctl env ts view c e s).2.2.2.1]

/-- The element loop preserves the counters and the cache. -/
lemma processElements_ctl (env : Env) (ts : ToggleSettings) (view : RView)
    (covered : List Nat) :
    ∀ (es : List Element) (s : RunState),
      (processElements env ts view covered es s).configCalls = s.configCalls ∧
      (processElements env ts view covered es s).txnStarts = s.txnStarts ∧
      (processElements env ts view covered es s).generalErrors = s.generalErrors ∧
      (processElements env ts view covered es s).element_cache = s.element_cache
  | [], s => ⟨rfl, rfl, rfl, rfl⟩
  | e :: rest, s => by
    have hpe := processElement_ctl env ts view covered e s
    unfold processElements
    cases hres : processElement env ts view covered e s with
    | mk r s' =>
      rw [hres] at hpe
      cases r with
      | done =>
        have ih := processElements_ctl env ts view covered rest s'
        simp only []
        exact ⟨ih.1.trans hpe.2.1, ih.2.1.trans hpe.2.2.1,
          ih.2.2.1.trans hpe.2.2.2.1, ih.2.2.2.trans hpe.2.2.2.2⟩
      | stop => exact ⟨hpe.2.1, hpe.2.2.1, hpe.2.2.2.1, hpe.2.2.2.2⟩
      | err m =>
        have ih := processElements_ctl env ts view covered rest
          { s' with log := s'.log ++
              ["Error processing element ID " ++ toString e.id ++ ": " ++ m] }
        simp only []
        exact ⟨ih.1.trans hpe.2.1, ih.2.1.trans hpe.2.2.1,
          ih.2.2.1.trans hpe.2.2.2.1, ih.2.2.2.trans hpe.2.2.2.2⟩

/-- The element loop only appends to the log. -/
lemma processElements_log (env : Env) (ts : ToggleSettings) (view : RView)
    (covered : List Nat) :
    ∀ (es : List Element) (s : RunState),
      ∃ l, (processElements env ts view covered es s).log = s.log ++ l
  | [], s => ⟨[], by simp [processElements]⟩
  | e :: rest, s => by
    unfold processElements
    cases hres : processElement env ts view covered e s with
    | mk r s' =>
      have hpe : s'.log = s.log := by
        have h := (processElement_ctl env ts view covered e s).1
        rw [hres] at h
        exact h
      cases r with
      | done =>
        obtain ⟨l, hl⟩ := processElements_log env ts view covered rest s'
        refine ⟨l, ?_⟩
        show (processElements env ts view covered rest s').log = s.log ++ l
        rw [hl, hpe]
      | stop =>
        refine ⟨[], ?_⟩
        show s'.log = s.log ++ []
        rw [hpe, List.append_nil]
      | err m =>
        obtain ⟨l, hl⟩ := processElements_log env ts view covered rest
          { s' with log := s'.log ++
              ["Error processing element ID " ++ toString e.id ++ ": " ++ m] }
        refine ⟨["Error processing element ID " ++ toString e.id ++ ": " ++ m] ++ l, ?_⟩
        show (processElements env ts view covered rest
          { s' with log := s'.log ++
              ["Error processing element ID " ++ toString e.id ++ ": " ++ m] }).log =
          s.log ++ (["Error processing element ID " ++ toString e.id ++ ": " ++ m] ++ l)
        rw [hl]
        simp [hpe]

/-- Any tag present after the element loop was already present, or tags a
processed element that was not in the covered set. -/
lemma processElements_tags (env : Env) (ts : ToggleSettings) (view : RView)
    (covered : List Nat) :
    ∀ (es : List Element) (s : RunState),
      ∀ t ∈ (processElements env ts view covered es s).tags,
        t ∈ s.tags ∨ ∃ e ∈ es, e.id ∉ covered ∧ t.taggedIds = [e.id]
  | [], s => fun t ht => Or.inl ht
  | e :: rest, s => by
    unfold processElements
    cases hres : processElement env ts view covered e s with
    | mk r s' =>
      have hpe : ∀ t ∈ s'.tags, t ∈ s.tags ∨ (e.id ∉ covered ∧ t.taggedIds = [e.id]) := by
        have h := processElement_tags env ts view covered e s
        rw [hres] at h
        exact h
      cases r with
      | done =>
        intro t ht
        rcases processElements_tags env ts view covered rest s' t ht with h | ⟨e', he', h⟩
        · rcases hpe t h with h' | h'
          · exact Or.inl h'
          · exact Or.inr ⟨e, List.mem_cons_self e rest, h'⟩
        · exact Or.inr ⟨e', List.mem_cons_of_mem e he', h⟩
      | stop =>
        intro t ht
        rcases hpe t ht with h | h
        · exact Or.inl h
        · exact Or.inr ⟨e, List.mem_cons_self e rest, h⟩
      | err m =>
        intro t ht
        rcases processElements_tags env ts view covered rest _ t ht with h | ⟨e', he', h⟩
        · rcases hpe t h with h' | h'
          · exact Or.inl h'
          · exact Or.inr ⟨e, List.mem_cons_self e rest, h'⟩
        · exact Or.inr ⟨e', List.mem_cons_of_mem e he', h⟩

/-- The approved-categories set only grows across the element loop. -/
lemma processElements_ignored_mono (env : Env) (ts : ToggleSettings)
    (view : RView) (covered : List Nat) :
    ∀ (es : List Element) (s : RunState),
      ∀ x ∈ s.ignored_tag_types,
        x ∈ (processElements env ts view covered es s).ignored_tag_types
  | [], _ => fun _ hx => hx
  | e :: rest, s => by
    unfold processElements
    cases hres : processElement env ts view covered e s with
    | mk r s' =>
      have hpe : ∀ x ∈ s.ignored_tag_types, x ∈ s'.ignored_tag_types := by
        have h := processElement_ignored_mono env ts view covered e s
        rw [hres] at h
        exact h
      cases r with
      | done =>
        exact fun x hx =>
          processElements_ignored_mono env ts view covered rest s' x (hpe x hx)
      | stop => exact hpe
      | err m =>
        exact fun x hx =>
          processElements_ignored_mono env ts view covered rest _ x (hpe x hx)

/-- A category in the approved set at loop entry is never prompted for
during the loop. -/
lemma processElements_prompted (env : Env) (ts : ToggleSettings)
    (view : RView) (covered : List Nat) :
    ∀ (es : List Element) (s : RunState) (x : Nat),
      x ∈ s.ignored_tag_types →
      (processElements env ts view covered es s).promptedCats.count x =
        s.promptedCats.count x
  | [], _, _ => fun _ => rfl
  | e :: rest, s, x => by
    intro hx
    unfold processElements
    cases hres : processElement env ts view covered e s with
    | mk r s' =>
      have hcnt : s'.promptedCats.count x = s.promptedCats.count x := by
        have h := processElement_prompted env ts view covered e s x hx
        rw [hres] at h
        exact h
      have hmono : x ∈ s'.ignored_tag_types := by
        have h := processElement_ignored_mono env ts view covered e s x hx
        rw [hres] at h
        exact h
      cases r with
      | done =>
        exact (processElements_prompted env ts view covered rest s' x hmono).trans hcnt
      | stop => exact hcnt
      | err m =>
        exact (processElements_prompted env ts view covered rest
          { s' with log := s'.log ++
              ["Error processing element ID " ++ toString e.id ++ ": " ++ m] }
          x hmono).trans hcnt

/-- Processing one view calls the toggle-settings loader exactly once. -/
lemma tag_elements_in_view_configCalls (env : Env) (view : RView)
    (elements : List Element) (s : RunState) :
    ((tag_elements_in_view env view elements s).2).configCalls =
      s.configCalls + 1 := by
  cases htl : env.toggleLoads s.configCalls with
  | error m => simp [tag_elements_in_view, htl]
  | ok ts =>
    simp only [tag_elements_in_view, htl]
    exact (processElements_ctl env ts view _ elements _).1

/-- Processing one view never touches the transaction counter, the error
counter or the element cache. -/
lemma tag_elements_in_view_ctl (env : Env) (view : RView)
    (elements : List Element) (s : RunState) :
    ((tag_elements_in_view env view elements s).2).txnStarts = s.txnStarts ∧
    ((tag_elements_in_view env view elements s).2).generalErrors = s.generalErrors ∧
    ((tag_elements_in_view env view elements s).2).element_cache = s.element_cache := by
  cases htl : env.toggleLoads s.configCalls with
  | error m => simp [tag_elements_in_view, htl]
  | ok ts =>
    simp only [tag_elements_in_view, htl]
    have h := processElements_ctl env ts view
      (coveredLoop env.versionNumber
        (s.tags.filter (fun t => t.viewId = view.id)) [] []).1 elements
    exact ⟨(h _).2.1, (h _).2.2.1, (h _).2.2.2⟩

/-- If the settings loader raises, no element is processed: the document's
tags are unchanged. -/
lemma tag_elements_in_view_exn (env : Env) (view : RView)
    (elements : List Element) (s : RunState) (m : String)
    (h : (tag_elements_in_view env view elements s).1 = Outcome.exn m) :
    ((tag_elements_in_view env view elements s).2).tags = s.tags := by
  cases htl : env.toggleLoads s.configCalls with
  | error m' => simp [tag_elements_in_view, htl]
  | ok ts =>
    simp only [tag_elements_in_view, htl] at h
    exact absurd h (by simp)

/-- Any tag present after processing one view was already present, or tags
an element of the candidate list whose id was not covered by the view's
pre-existing tags. -/
lemma tag_elements_in_view_tags (env : Env) (view : RView)
    (elements : List Element) (s : RunState) :
    ∀ t ∈ ((tag_elements_in_view env view elements s).2).tags,
      t ∈ s.tags ∨ ∃ e ∈ elements,
        e.id ∉ coveredIds env.versionNumber view.id s.tags ∧
        t.taggedIds = [e.id] := by
  cases htl : env.toggleLoads s.configCalls with
  | error m => simp only [tag_elements_in_view, htl]; exact fun t ht => Or.inl ht
  | ok ts =>
    simp only [tag_elements_in_view, htl]
    intro t ht
    have h := processElements_tags env ts view
      (coveredLoop env.versionNumber
        (s.tags.filter (fun t => t.viewId = view.id)) [] []).1 elements _ t ht
    exact h

/-- The approved-categories set only grows across one view. -/
lemma tag_elements_in_view_ignored_mono (env : Env) (view : RView)
    (elements : List Element) (s : RunState) :
    ∀ x ∈ s.ignored_tag_types,
      x ∈ ((tag_elements_in_view env view elements s).2).ignored_tag_types := by
  cases htl : env.toggleLoads s.configCalls with
  | error m => simp only [tag_elements_in_view, htl]; exact fun x hx => hx
  | ok ts =>
    simp only [tag_elements_in_view, htl]
    exact fun x hx => processElements_ignored_mono env ts view _ elements _ x hx

/-- A category approved before a view is processed is not prompted for in
that view. -/
lemma tag_elements_in_view_prompted (env : Env) (view : RView)
    (elements : List Element) (s : RunState) (x : Nat)
    (hx : x ∈ s.ignored_tag_types) :
    ((tag_elements_in_view env view elements s).2).promptedCats.count x =
      s.promptedCats.count x := by
  cases htl : env.toggleLoads s.configCalls with
  | error m => simp [tag_elements_in_view, htl]
  | ok ts =>
    simp only [tag_elements_in_view, htl]
    exact processElements_prompted env ts view _ elements _ x hx

/-- The view loop returns `ok` exactly when every view is processed without
an escaping exception. -/
lemma viewsLoop_ok_iff (env : Env) (elements : List Element) :
    ∀ (vs : List RView) (s : RunState),
      (viewsLoop env elements vs s).1 = Outcome.ok () ↔
        viewsAllOk env elements vs s = true
  | [], s => by simp [viewsLoop, viewsAllOk]
  | v :: vs, s => by
    unfold viewsLoop viewsAllOk
    cases hres : tag_elements_in_view env v elements s with
    | mk r s' =>
      cases r with
      | ok a => exact viewsLoop_ok_iff env elements vs s'
      | exn m => simp
      | sysExit => simp

/-- The view loop preserves the transaction counter, the error counter and
the element cache. -/
lemma viewsLoop_ctl (env : Env) (elements : List Element) :
    ∀ (vs : List RView) (s : RunState),
      ((viewsLoop env elements vs s).2).txnStarts = s.txnStarts ∧
      ((viewsLoop env elements vs s).2).generalErrors = s.generalErrors ∧
      ((viewsLoop env elements vs s).2).element_cache = s.element_cache
  | [], s => ⟨rfl, rfl, rfl⟩
  | v :: vs, s => by
    unfold viewsLoop
    cases hres : tag_elements_in_view env v elements s with
    | mk r s' =>
      have hv : s'.txnStarts = s.txnStarts ∧ s'.generalErrors = s.generalErrors ∧
          s'.element_cache = s.element_cache := by
        have h := tag_elements_in_view_ctl env v elements s
        rw [hres] at h
        exact h
      cases r with
      | ok a =>
        have ih := viewsLoop_ctl env elements vs s'
        exact ⟨ih.1.trans hv.1, ih.2.1.trans hv.2.1, ih.2.2.trans hv.2.2⟩
      | exn m => exact hv
      | sysExit => exact hv

/-- When the view loop succeeds, the settings loader was called once per
view. -/
lemma viewsLoop_configCalls (env : Env) (elements : List Element) :
    ∀ (vs : List RView) (s : RunState),
      (viewsLoop env elements vs s).1 = Outcome.ok () →
      ((viewsLoop env elements vs s).2).configCalls =
        s.configCalls + vs.length
  | [], s => fun _ => rfl
  | v :: vs, s => by
    unfold viewsLoop
    cases hres : tag_elements_in_view env v elements s with
    | mk r s' =>
      have hv : s'.configCalls = s.configCalls + 1 := by
        have h := tag_elements_in_view_configCalls env v elements s
        rw [hres] at h
        exact h
      cases r with
      | ok a =>
        intro hok
        have ih := viewsLoop_configCalls env elements vs s' hok
        rw [ih, hv, List.length_cons]
        omega
      | exn m => intro hok; exact absurd hok (by simp)
      | sysExit => intro hok; exact absurd hok (by simp)

/-- The approved-categories set only grows across the view loop. -/
lemma viewsLoop_ignored_mono (env : Env) (elements : List Element) :
    ∀ (vs : List RView) (s : RunState),
      ∀ x ∈ s.ignored_tag_types,
        x ∈ ((viewsLoop env elements vs s).2).ignored_tag_types
  | [], _ => fun _ hx => hx
  | v :: vs, s => by
    unfold viewsLoop
    cases hres : tag_elements_in_view env v elements s with
    | mk r s' =>
      have hv : ∀ x ∈ s.ignored_tag_types, x ∈ s'.ignored_tag_types := by
        have h := tag_elements_in_view_ignored_mono env v elements s
        rw [hres] at h
        exact h
      cases r with
      | ok a => exact fun x hx => viewsLoop_ignored_mono env elements vs s' x (hv x hx)
      | exn m => exact hv
      | sysExit => exact hv

/-- A category in the approved set is never prompted for again during the
remaining views of the run. -/
lemma viewsLoop_prompted (env : Env) (elements : List Element) :
    ∀ (vs : List RView) (s : RunState) (x : Nat),
      x ∈ s.ignored_tag_types →
      ((viewsLoop env elements vs s).2).promptedCats.count x =
        s.promptedCats.count x
  | [], _, _ => fun _ => rfl
  | v :: vs, s, x => by
    intro hx
    unfold viewsLoop
    cases hres : tag_elements_in_view env v elements s with
    | mk r s' =>
      have hcnt : s'.promptedCats.count x = s.promptedCats.count x := by
        have h := tag_elements_in_view_prompted env v elements s x hx
        rw [hres] at h
        exact h
      have hmono : x ∈ s'.ignored_tag_types := by
        have h := tag_elements_in_view_ignored_mono env v elements s x hx
        rw [hres] at h
        exact h
      cases r with
      | ok a => exact (viewsLoop_prompted env elements vs s' x hmono).trans hcnt
      | exn m => exact hcnt
      | sysExit => exact hcnt

/-- Element collection touches neither the document's tags nor the
transaction and error counters. -/
lemma selectElementsLoop_ctl (env : Env) :
    ∀ (cs : List (Option Category)) (acc : List Element) (s : RunState),
      ((selectElementsLoop env cs acc s).2).tags = s.tags ∧
      ((selectElementsLoop env cs acc s).2).txnStarts = s.txnStarts ∧
      ((selectElementsLoop env cs acc s).2).generalErrors = s.generalErrors
  | [], _, s => ⟨rfl, rfl, rfl⟩
  | none :: _, _, s => ⟨rfl, rfl, rfl⟩
  | some c :: rest, acc, s => by
    unfold selectElementsLoop
    exact selectElementsLoop_ctl env rest _ _

/-- When every chosen category name resolved, element collection raises
nothing. -/
lemma selectElementsLoop_ok (env : Env) :
    ∀ (cs : List (Option Category)) (acc : List Element) (s : RunState),
      (∀ c ∈ cs, c.isSome = true) →
      ∃ es, (selectElementsLoop env cs acc s).1 = Outcome.ok es
  | [], acc, s => fun _ => ⟨acc, rfl⟩
  | none :: rest, _, s => by
    intro h
    exact absurd (h none (List.mem_cons_self _ _)) (by simp)
  | some c :: rest, acc, s => by
    intro h
    exact selectElementsLoop_ok env rest _ _
      (fun c' hc' => h c' (List.mem_cons_of_mem _ hc'))

/-- When the element is not covered, its category is present, the
visibility filter passes and no prompt is needed, processing the element
is exactly the tag-creation step. -/
lemma processElement_reaches_creation (env : Env) (ts : ToggleSettings)
    (view : RView) (covered : List Nat) (c : Category) (e : Element)
    (s : RunState)
    (hc : e.category = some c)
    (hcov : e.id ∉ covered)
    (hvis : ts.toggle_visibility = true →
      is_element_visible_in_view env view c e = true)
    (hload : is_tag_type_loaded env c.id = true ∨ c.id ∈ s.ignored_tag_types) :
    processElement env ts view covered e s = tagCreationStep env ts view c e s := by
  have hnvis : ¬ (ts.toggle_visibility = true ∧
      is_element_visible_in_view env view c e = false) := by
    rintro ⟨h1, h2⟩
    rw [hvis h1] at h2
    cases h2
  have hnprompt : ¬ (is_tag_type_loaded env c.id = false ∧
      c.id ∉ s.ignored_tag_types) := by
    rintro ⟨h1, h2⟩
    rcases hload with h | h
    · rw [h] at h1; cases h1
    · exact h2 h
  unfold processElement
  rw [hc]
  simp only [hcov, if_false, hnvis, hnprompt, if_neg, ite_false]

end Lemmas

/-! ### The claims -/

/-- C1: for every view processed by the tagger and every candidate element
whose identifier is in the set of identifiers collected from that view's
pre-existing tags, no new tag is created for that element in that view —
any tag referencing a covered identifier after the run already existed
before it; re-running the tagger over an already-tagged view therefore
creates no duplicate tag for a covered element. -/
theorem C1_no_retag_of_covered (env : Env) (view : RView)
    (elements : List Element) (s : RunState) (i : Nat) (t : Tag)
    (hi : i ∈ coveredIds env.versionNumber view.id s.tags)
    (ht : t ∈ ((tag_elements_in_view env view elements s).2).tags)
    (hit : i ∈ t.taggedIds) :
    t ∈ s.tags := by
  rcases tag_elements_in_view_tags env view elements s t ht with h | ⟨e, _, hnc, hids⟩
  · exact h
  · rw [hids, List.mem_singleton] at hit
    exact absurd (hit ▸ hi) hnc

/-- Witness for C1: element 10 is covered by the pre-existing tag of view 1,
and after re-running the tagger over that view the only tag referencing it
is still the pre-existing one. -/
theorem C1_no_retag_of_covered_witness : wTag10 ∈ wS1.tags :=
  C1_no_retag_of_covered wEnv wPlan1 [wDoor] wS1 10 wTag10
    (by decide) (by decide) (by decide)

/-- C3: a run opens exactly one transaction; it is committed exactly when
every selected view is processed without an exception escaping the
per-element guard, and on an escaping exception it is rolled back, so no
tag created during the run persists. -/
theorem C3_single_transaction (env : Env) (views : List RView)
    (elements : List Element) (s : RunState) :
    ((tag_elements_in_selected_views env views elements s).1 = Outcome.ok () ↔
      viewsAllOk env elements views { s with txnStarts := s.txnStarts + 1 } = true) ∧
    (∀ m, (tag_elements_in_selected_views env views elements s).1 = Outcome.exn m →
      ((tag_elements_in_selected_views env views elements s).2).tags = s.tags) ∧
    ((tag_elements_in_selected_views env views elements s).2).txnStarts =
      s.txnStarts + 1 := by
  have heq : tag_elements_in_selected_views env views elements s =
      match viewsLoop env elements views { s with txnStarts := s.txnStarts + 1 } with
      | (Outcome.ok _, s1) => (Outcome.ok (), s1)
      | (Outcome.exn m, s1) => (Outcome.exn m, { s1 with tags := s.tags })
      | (Outcome.sysExit, s1) => (Outcome.sysExit, s1) := rfl
  have hiff := viewsLoop_ok_iff env elements views { s with txnStarts := s.txnStarts + 1 }
  have hctl := (viewsLoop_ctl env elements views { s with txnStarts := s.txnStarts + 1 }).1
  cases hvl : viewsLoop env elements views { s with txnStarts := s.txnStarts + 1 } with
  | mk r s1 =>
    rw [hvl] at hiff hctl heq
    cases r with
    | ok a =>
      cases a
      rw [heq]
      refine ⟨by simpa using hiff, ?_, hctl⟩
      intro m hm
      exact absurd hm (by simp)
    | exn m0 =>
      rw [heq]
      refine ⟨?_, ?_, hctl⟩
      · constructor
        · intro h
          exact absurd h (by simp)
        · intro h
          exact absurd (hiff.mpr h) (by simp)
      · intro m hm
        rfl
    | sysExit =>
      rw [heq]
      refine ⟨?_, ?_, hctl⟩
      · constructor
        · intro h
          exact absurd h (by simp)
        · intro h
          exact absurd (hiff.mpr h) (by simp)
      · intro m hm
        exact absurd hm (by simp)

/-- Witness for C3: with a loader that fails at the second view, the run's
tag creations are rolled back (view 1 had created a tag mid-run); with an
all-good world the transaction commits. -/
theorem C3_single_transaction_witness :
    ((tag_elements_in_selected_views wEnvC3 [wPlan1, wPlan2] [wDoor] wS).2).tags
      = wS.tags ∧
    (tag_elements_in_selected_views wEnv [wPlan1] [wDoor] wS).1 = Outcome.ok () :=
  ⟨(C3_single_transaction wEnvC3 [wPlan1, wPlan2] [wDoor] wS).2.1
      "config load failed" (by decide),
   (C3_single_transaction wEnv [wPlan1] [wDoor] wS).1.mpr (by decide)⟩

/-- C4, corrected: the toggle settings are not loaded once per run — they
are loaded exactly once per view, at the start of that view's processing,
so a successful run over `n` views calls the loader `n` times; within one
view a single loaded value governs all elements. -/
theorem C4_settings_once_per_view (env : Env) :
    (∀ (view : RView) (elements : List Element) (s : RunState),
      ((tag_elements_in_view env view elements s).2).configCalls =
        s.configCalls + 1) ∧
    (∀ (views : List RView) (elements : List Element) (s : RunState),
      (viewsLoop env elements views s).1 = Outcome.ok () →
      ((viewsLoop env elements views s).2).configCalls =
        s.configCalls + views.length) :=
  ⟨fun view elements s => tag_elements_in_view_configCalls env view elements s,
   fun views elements s h => viewsLoop_configCalls env elements views s h⟩

/-- Witness for C4's amended statement: one view loads once; the successful
two-view run loads twice. -/
theorem C4_settings_once_per_view_witness :
    ((tag_elements_in_view wEnvC4 wPlan1 [wDoor] wS).2).configCalls = 1 ∧
    ((viewsLoop wEnvC4 [wDoor] [wPlan1, wPlan2] wS).2).configCalls = 2 :=
  ⟨(C4_settings_once_per_view wEnvC4).1 wPlan1 [wDoor] wS,
   (C4_settings_once_per_view wEnvC4).2 [wPlan1, wPlan2] [wDoor] wS (by decide)⟩

/-- Counterexample to C4 as stated: in a run over two selected views the
toggle-settings loader is called twice — once per view, inside the
transaction — not "exactly once per run, before tagging begins". -/
theorem C4_loaded_once_per_run_cex :
    (runScript wEnvC4 wS).configCalls = 2 := by decide

/-- C5: an exception raised while processing one element is caught, a line
carrying the element's identifier is printed, and the loop continues with
the next element — the line is in the final log and the failure aborts
neither the view loop nor the run. -/
theorem C5_per_element_isolation (env : Env) (ts : ToggleSettings)
    (view : RView) (covered : List Nat) (e : Element) (rest : List Element)
    (s s' : RunState) (m : String)
    (h : processElement env ts view covered e s = (ElemRes.err m, s')) :
    processElements env ts view covered (e :: rest) s =
      processElements env ts view covered rest
        { s' with log := s'.log ++
            ["Error processing element ID " ++ toString e.id ++ ": " ++ m] } ∧
    ("Error processing element ID " ++ toString e.id ++ ": " ++ m) ∈
      (processElements env ts view covered (e :: rest) s).log := by
  have heq : processElements env ts view covered (e :: rest) s =
      processElements env ts view covered rest
        { s' with log := s'.log ++
            ["Error processing element ID " ++ toString e.id ++ ": " ++ m] } := by
    have hstep : processElements env ts view covered (e :: rest) s =
        match processElement env ts view covered e s with
        | (ElemRes.done, s1) => processElements env ts view covered rest s1
        | (ElemRes.stop, s1) => s1
        | (ElemRes.err m1, s1) =>
          processElements env ts view covered rest
            { s1 with log := s1.log ++
                ["Error processing element ID " ++ toString e.id ++ ": " ++ m1] } := rfl
    rw [hstep, h]
  refine ⟨heq, ?_⟩
  rw [heq]
  obtain ⟨l, hl⟩ := processElements_log env ts view covered rest
    { s' with log := s'.log ++
        ["Error processing element ID " ++ toString e.id ++ ": " ++ m] }
  rw [hl]
  simp

/-- Witness for C5: processing an element with a null category raises, the
error is logged with the element's id, and the loop goes on. -/
theorem C5_per_element_isolation_witness :
    processElements wEnv wTS wPlan1 [] [wNoCat, wDoor] wS =
      processElements wEnv wTS wPlan1 [] [wDoor]
        { wS with log := wS.log ++
            ["Error processing element ID 7: AttributeError: NoneType object has no attribute Id"] } ∧
    "Error processing element ID 7: AttributeError: NoneType object has no attribute Id" ∈
      (processElements wEnv wTS wPlan1 [] [wNoCat, wDoor] wS).log := by
  have h := C5_per_element_isolation wEnv wTS wPlan1 [] wNoCat [wDoor] wS wS
    "AttributeError: NoneType object has no attribute Id" (by decide)
  exact h

/-- C7: when the blank-tag toggle is on and the created tag's text trims to
empty, the tag is deleted right after creation (a tag id was consumed but
the view's tag set is unchanged); with the toggle off or non-blank text the
created tag stays. -/
theorem C7_blank_tag_deleted (env : Env) (ts : ToggleSettings) (view : RView)
    (covered : List Nat) (c : Category) (e : Element) (s : RunState) (bb : BBox)
    (hc : e.category = some c)
    (hcov : e.id ∉ covered)
    (hvis : ts.toggle_visibility = true →
      is_element_visible_in_view env view c e = true)
    (hload : is_tag_type_loaded env c.id = true ∨ c.id ∈ s.ignored_tag_types)
    (hbb : e.bbox = some bb)
    (hok : env.createOk view.id e.id = true)
    (hfresh : ∀ t ∈ s.tags, t.id ≠ s.nextTagId) :
    (ts.check_blank_tag = true ∧ textIsBlank (env.tagTextFor view.id e.id) = true →
      ((processElement env ts view covered e s).2).tags = s.tags ∧
      ((processElement env ts view covered e s).2).nextTagId = s.nextTagId + 1) ∧
    (ts.check_blank_tag = false ∨ textIsBlank (env.tagTextFor view.id e.id) = false →
      ∃ t, ((processElement env ts view covered e s).2).tags = s.tags ++ [t] ∧
        t.text = env.tagTextFor view.id e.id) := by
  rw [processElement_reaches_creation env ts view covered c e s hc hcov hvis hload]
  have hgp : get_projected_center_point e =
      some (XYZ.add bb.min (XYZ.smul (1 / 2) (XYZ.sub bb.max bb.min))) := by
    simp [get_projected_center_point, hbb]
  constructor
  · rintro ⟨h1, h2⟩
    simp [tagCreationStep, hgp, hok, madeTag, h1, h2]
    exact hfresh
  · intro h1
    have hcond : ¬ (ts.check_blank_tag = true ∧
        textIsBlank (env.tagTextFor view.id e.id) = true) := by
      rcases h1 with h | h
      · rintro ⟨ha, _⟩
        rw [h] at ha
        cases ha
      · rintro ⟨_, hb⟩
        rw [h] at hb
        cases hb
    refine ⟨madeTag env ts view c e
      (XYZ.add bb.min (XYZ.smul (1 / 2) (XYZ.sub bb.max bb.min))) s, ?_, by simp [madeTag]⟩
    simp [tagCreationStep, hgp, hok, madeTag, hcond]

/-- Witness for C7: whitespace-only text with the toggle on leaves the tag
set unchanged (one id consumed); plain text with the toggle off keeps the
created tag. -/
theorem C7_blank_tag_deleted_witness :
    (((processElement wEnvBlank wTSblank wPlan1 [] wDoor wS).2).tags = wS.tags ∧
     ((processElement wEnvBlank wTSblank wPlan1 [] wDoor wS).2).nextTagId =
       wS.nextTagId + 1) ∧
    (∃ t, ((processElement wEnv wTS wPlan1 [] wDoor wS).2).tags = wS.tags ++ [t] ∧
      t.text = wEnv.tagTextFor wPlan1.id wDoor.id) :=
  ⟨(C7_blank_tag_deleted wEnvBlank wTSblank wPlan1 [] wDoors wDoor wS wBox
      (by decide) (by decide) (by decide) (Or.inl (by decide)) (by decide)
      (by decide) (by decide)).1 ⟨by decide, by decide⟩,
   (C7_blank_tag_deleted wEnv wTS wPlan1 [] wDoors wDoor wS wBox
      (by decide) (by decide) (by decide) (Or.inl (by decide)) (by decide)
      (by decide) (by decide)).2 (Or.inl (by decide))⟩

/-- C8: every created tag uses the add-by-category mode and horizontal
orientation, and carries a leader exactly when the element's category is
named "Windows", the view is a floor plan and the window-in-plan toggle is
on; in every other combination the tag is created without a leader. -/
theorem C8_leader_variant (env : Env) (ts : ToggleSettings) (view : RView)
    (covered : List Nat) (c : Category) (e : Element) (s : RunState) (bb : BBox)
    (hc : e.category = some c)
    (hcov : e.id ∉ covered)
    (hvis : ts.toggle_visibility = true →
      is_element_visible_in_view env view c e = true)
    (hload : is_tag_type_loaded env c.id = true ∨ c.id ∈ s.ignored_tag_types)
    (hbb : e.bbox = some bb)
    (hok : env.createOk view.id e.id = true)
    (hnb : ts.check_blank_tag = true →
      textIsBlank (env.tagTextFor view.id e.id) = false) :
    ∃ t, ((processElement env ts view covered e s).2).tags = s.tags ++ [t] ∧
      (processElement env ts view covered e s).1 = ElemRes.done ∧
      t.taggedIds = [e.id] ∧
      t.mode = TagMode.TM_ADDBY_CATEGORY ∧
      t.orientation = TagOrientation.Horizontal ∧
      (t.leader = true ↔ (c.name = "Windows" ∧
        view.viewType = RVViewType.FloorPlan ∧ ts.tag_windows_in_plan = true)) := by
  rw [processElement_reaches_creation env ts view covered c e s hc hcov hvis hload]
  have hgp : get_projected_center_point e =
      some (XYZ.add bb.min (XYZ.smul (1 / 2) (XYZ.sub bb.max bb.min))) := by
    simp [get_projected_center_point, hbb]
  have hcond : ¬ (ts.check_blank_tag = true ∧
      textIsBlank (env.tagTextFor view.id e.id) = true) := by
    rintro ⟨ha, hb⟩
    rw [hnb ha] at hb
    cases hb
  refine ⟨madeTag env ts view c e
    (XYZ.add bb.min (XYZ.smul (1 / 2) (XYZ.sub bb.max bb.min))) s,
    ?_, ?_, rfl, rfl, rfl, ?_⟩
  · simp [tagCreationStep, hgp, hok, madeTag, hcond]
  · simp [tagCreationStep, hgp, hok, madeTag, hcond]
  · simp [madeTag, tagLeaderFlag]

/-- Witness for C8: the window element in a floor plan with the toggle on
gets a leader; the door element with the plain settings does not. -/
theorem C8_leader_variant_witness :
    (∃ t, ((processElement wEnv wTSwin wPlan1 [] wWindow wS).2).tags =
        wS.tags ++ [t] ∧
      (processElement wEnv wTSwin wPlan1 [] wWindow wS).1 = ElemRes.done ∧
      t.taggedIds = [wWindow.id] ∧
      t.mode = TagMode.TM_ADDBY_CATEGORY ∧
      t.orientation = TagOrientation.Horizontal ∧
      (t.leader = true ↔ (wWindows.name = "Windows" ∧
        wPlan1.viewType = RVViewType.FloorPlan ∧ wTSwin.tag_windows_in_plan = true))) ∧
    (∃ t, ((processElement wEnv wTS wPlan1 [] wDoor wS).2).tags =
        wS.tags ++ [t] ∧
      (processElement wEnv wTS wPlan1 [] wDoor wS).1 = ElemRes.done ∧
      t.taggedIds = [wDoor.id] ∧
      t.mode = TagMode.TM_ADDBY_CATEGORY ∧
      t.orientation = TagOrientation.Horizontal ∧
      (t.leader = true ↔ (wDoors.name = "Windows" ∧
        wPlan1.viewType = RVViewType.FloorPlan ∧ wTS.tag_windows_in_plan = true))) :=
  ⟨C8_leader_variant wEnv wTSwin wPlan1 [] wWindows wWindow wS wBox
      (by decide) (by decide) (by decide) (Or.inl (by decide)) (by decide)
      (by decide) (by decide),
   C8_leader_variant wEnv wTS wPlan1 [] wDoors wDoor wS wBox
      (by decide) (by decide) (by decide) (Or.inl (by decide)) (by decide)
      (by decide) (by decide)⟩

/-- C9: an element without a bounding box yields the no-point signal, no
tag and no escaping exception; with a bounding box present the placement
point is exactly the midpoint of the two corners. -/
theorem C9_no_bbox_no_tag (env : Env) (ts : ToggleSettings) (view : RView)
    (covered : List Nat) (c : Category) (e : Element) (s : RunState)
    (hc : e.category = some c)
    (hcov : e.id ∉ covered)
    (hvis : ts.toggle_visibility = true →
      is_element_visible_in_view env view c e = true)
    (hload : is_tag_type_loaded env c.id = true ∨ c.id ∈ s.ignored_tag_types) :
    (e.bbox = none →
      get_projected_center_point e = none ∧
      processElement env ts view covered e s = (ElemRes.done, s)) ∧
    (∀ bb, e.bbox = some bb →
      get_projected_center_point e = some (specMidpoint bb.min bb.max)) := by
  constructor
  · intro hbb
    have hgp : get_projected_center_point e = none := by
      simp [get_projected_center_point, hbb]
    refine ⟨hgp, ?_⟩
    rw [processElement_reaches_creation env ts view covered c e s hc hcov hvis hload]
    simp [tagCreationStep, hgp]
  · intro bb hbb
    simp only [get_projected_center_point, hbb]
    congr 1
    cases bb.min with
    | mk ax ay az =>
      cases bb.max with
      | mk bx by' bz =>
        simp only [XYZ.add, XYZ.sub, XYZ.smul, specMidpoint, XYZ.mk.injEq]
        refine ⟨by ring, by ring, by ring⟩

/-- Witness for C9: the box-less door element is skipped without error, and
the boxed door's placement point is the corner midpoint. -/
theorem C9_no_bbox_no_tag_witness :
    (get_projected_center_point wNoBox = none ∧
     processElement wEnv wTS wPlan1 [] wNoBox wS = (ElemRes.done, wS)) ∧
    get_projected_center_point wDoor = some (specMidpoint wBox.min wBox.max) :=
  ⟨(C9_no_bbox_no_tag wEnv wTS wPlan1 [] wDoors wNoBox wS
      (by decide) (by decide) (by decide) (Or.inl (by decide))).1 (by decide),
   (C9_no_bbox_no_tag wEnv wTS wPlan1 [] wDoors wDoor wS
      (by decide) (by decide) (by decide) (Or.inl (by decide))).2 wBox (by decide)⟩

/-- C10: the covered set is fixed before the element loop and is not
extended by the tags the loop creates, so an element occurring twice in
the candidate list (and passing the other filters) receives one tag per
occurrence — two distinct tag ids, both referencing it. -/
theorem C10_duplicates_tagged_separately (env : Env) (ts : ToggleSettings)
    (view : RView) (covered : List Nat) (c : Category) (e : Element)
    (s : RunState) (bb : BBox)
    (hc : e.category = some c)
    (hcov : e.id ∉ covered)
    (hvis : ts.toggle_visibility = true →
      is_element_visible_in_view env view c e = true)
    (hload : is_tag_type_loaded env c.id = true)
    (hbb : e.bbox = some bb)
    (hok : env.createOk view.id e.id = true)
    (hblankoff : ts.check_blank_tag = false) :
    ∃ t1 t2, (processElements env ts view covered [e, e] s).tags =
        s.tags ++ [t1, t2] ∧
      t1.taggedIds = [e.id] ∧ t2.taggedIds = [e.id] ∧
      t1.id = s.nextTagId ∧ t2.id = s.nextTagId + 1 := by
  have hgp : get_projected_center_point e =
      some (XYZ.add bb.min (XYZ.smul (1 / 2) (XYZ.sub bb.max bb.min))) := by
    simp [get_projected_center_point, hbb]
  have hstep : ∀ st : RunState, processElement env ts view covered e st =
      (ElemRes.done,
        { st with
            tags := st.tags ++ [madeTag env ts view c e
              (XYZ.add bb.min (XYZ.smul (1 / 2) (XYZ.sub bb.max bb.min))) st],
            nextTagId := st.nextTagId + 1 }) := by
    intro st
    rw [processElement_reaches_creation env ts view covered c e st hc hcov hvis
      (Or.inl hload)]
    simp [tagCreationStep, hgp, hok, hblankoff]
  have hcons : ∀ (rest : List Element) (st : RunState),
      processElements env ts view covered (e :: rest) st =
        match processElement env ts view covered e st with
        | (ElemRes.done, s1) => processElements env ts view covered rest s1
        | (ElemRes.stop, s1) => s1
        | (ElemRes.err m1, s1) =>
          processElements env ts view covered rest
            { s1 with log := s1.log ++
                ["Error processing element ID " ++ toString e.id ++ ": " ++ m1] } :=
    fun _ _ => rfl
  refine ⟨madeTag env ts view c e
      (XYZ.add bb.min (XYZ.smul (1 / 2) (XYZ.sub bb.max bb.min))) s,
    madeTag env ts view c e
      (XYZ.add bb.min (XYZ.smul (1 / 2) (XYZ.sub bb.max bb.min)))
      { s with
          tags := s.tags ++ [madeTag env ts view c e
            (XYZ.add bb.min (XYZ.smul (1 / 2) (XYZ.sub bb.max bb.min))) s],
          nextTagId := s.nextTagId + 1 },
    ?_, rfl, rfl, rfl, rfl⟩
  rw [hcons [e] s, hstep s]
  simp only []
  rw [hcons [] _, hstep _]
  simp [processElements, madeTag]

/-- Witness for C10: the door element listed twice gets two tags with
consecutive ids, both referencing element 10. -/
theorem C10_duplicates_tagged_separately_witness :
    ∃ t1 t2, (processElements wEnv wTS wPlan1 [] [wDoor, wDoor] wS).tags =
        wS.tags ++ [t1, t2] ∧
      t1.taggedIds = [wDoor.id] ∧ t2.taggedIds = [wDoor.id] ∧
      t1.id = wS.nextTagId ∧ t2.id = wS.nextTagId + 1 :=
  C10_duplicates_tagged_separately wEnv wTS wPlan1 [] wDoors wDoor wS wBox
    (by decide) (by decide) (by decide) (by decide) (by decide) (by decide)
    (by decide)

/-- Counterexample to C2 as stated: the user declines the first
missing-tag-family prompt, yet the run is not aborted — the element is
processed again in the remaining selected view (a second prompt is shown)
and, approved there, a tag is created in that view. -/
theorem C2_decline_does_not_abort_run_cex :
    wEnvC2.alertAnswer 0 = "No" ∧
    ((tag_elements_in_selected_views wEnvC2 [wPlan1, wPlan2] [wDoor] wS).2).tags.map
      (fun t => t.viewId) = [2] ∧
    ((tag_elements_in_selected_views wEnvC2 [wPlan1, wPlan2] [wDoor] wS).2).promptCount
      = 2 :=
  ⟨by decide, by decide, by decide⟩

/-- C2, amended: when an element's category has no loaded tag family and is
not yet approved, the user is prompted; declining stops only the current
view's element loop — the category stays unapproved, and the view loop
continues with the remaining views (which may prompt again); approving adds
the category to the approved set, and an approved category is never
prompted for again for the remainder of the run. -/
theorem C2_prompt_scope_amended :
    (∀ (env : Env) (ts : ToggleSettings) (view : RView) (covered : List Nat)
        (c : Category) (e : Element) (rest : List Element) (s : RunState),
      e.category = some c →
      e.id ∉ covered →
      (ts.toggle_visibility = true →
        is_element_visible_in_view env view c e = true) →
      is_tag_type_loaded env c.id = false →
      c.id ∉ s.ignored_tag_types →
      env.alertAnswer s.promptCount = "No" →
      processElements env ts view covered (e :: rest) s =
        { s with promptCount := s.promptCount + 1,
                 promptedCats := s.promptedCats ++ [c.id] }) ∧
    (∀ (env : Env) (v : RView) (vs : List RView) (es : List Element)
        (s s' : RunState),
      tag_elements_in_view env v es s = (Outcome.ok (), s') →
      viewsLoop env es (v :: vs) s = viewsLoop env es vs s') ∧
    (∀ (env : Env) (ts : ToggleSettings) (view : RView) (covered : List Nat)
        (c : Category) (e : Element) (s : RunState),
      e.category = some c →
      e.id ∉ covered →
      (ts.toggle_visibility = true →
        is_element_visible_in_view env view c e = true) →
      is_tag_type_loaded env c.id = false →
      c.id ∉ s.ignored_tag_types →
      env.alertAnswer s.promptCount ≠ "No" →
      c.id ∈ ((processElement env ts view covered e s).2).ignored_tag_types) ∧
    (∀ (env : Env) (es : List Element) (vs : List RView) (s : RunState) (x : Nat),
      x ∈ s.ignored_tag_types →
      ((viewsLoop env es vs s).2).promptedCats.count x =
        s.promptedCats.count x) := by
  refine ⟨?_, ?_, ?_, ?_⟩
  · intro env ts view covered c e rest s hc hcov hvis hload hig hans
    have hnvis : ¬ (ts.toggle_visibility = true ∧
        is_element_visible_in_view env view c e = false) := by
      rintro ⟨h1, h2⟩
      rw [hvis h1] at h2
      cases h2
    have hpe : processElement env ts view covered e s =
        (ElemRes.stop, { s with promptCount := s.promptCount + 1,
                                promptedCats := s.promptedCats ++ [c.id] }) := by
      unfold processElement
      rw [hc]
      simp [hcov, hnvis, hload, hig, hans]
    have hcons : processElements env ts view covered (e :: rest) s =
        match processElement env ts view covered e s with
        | (ElemRes.done, s1) => processElements env ts view covered rest s1
        | (ElemRes.stop, s1) => s1
        | (ElemRes.err m1, s1) =>
          processElements env ts view covered rest
            { s1 with log := s1.log ++
                ["Error processing element ID " ++ toString e.id ++ ": " ++ m1] } := rfl
    rw [hcons, hpe]
  · intro env v vs es s s' h
    have hcons : viewsLoop env es (v :: vs) s =
        match tag_elements_in_view env v es s with
        | (Outcome.ok _, s1) => viewsLoop env es vs s1
        | (Outcome.exn m, s1) => (Outcome.exn m, s1)
        | (Outcome.sysExit, s1) => (Outcome.sysExit, s1) := rfl
    rw [hcons, h]
  · intro env ts view covered c e s hc hcov hvis hload hig hans
    have hnvis : ¬ (ts.toggle_visibility = true ∧
        is_element_visible_in_view env view c e = false) := by
      rintro ⟨h1, h2⟩
      rw [hvis h1] at h2
      cases h2
    have hpe : processElement env ts view covered e s =
        tagCreationStep env ts view c e
          { s with promptCount := s.promptCount + 1,
                   promptedCats := s.promptedCats ++ [c.id],
                   ignored_tag_types := s.ignored_tag_types ++ [c.id] } := by
      unfold processElement
      rw [hc]
      simp [hcov, hnvis, hload, hig, hans]
    rw [hpe]
    rw [(tagCreationStep_ctl env ts view c e
      { s with promptCount := s.promptCount + 1,
               promptedCats := s.promptedCats ++ [c.id],
               ignored_tag_types := s.ignored_tag_types ++ [c.id] }).1]
    simp
  · intro env es vs s x hx
    exact viewsLoop_prompted env es vs s x hx

/-- Witness for C2's amended statement, at the concrete declined and
approved prompts. -/
theorem C2_prompt_scope_amended_witness :
    (processElements wEnvC2 wTS wPlan1 [] [wDoor] wS =
      { wS with promptCount := 1, promptedCats := [5] }) ∧
    (viewsLoop wEnvC2 [wDoor] [wPlan1, wPlan2] wS =
      viewsLoop wEnvC2 [wDoor] [wPlan2]
        (tag_elements_in_view wEnvC2 wPlan1 [wDoor] wS).2) ∧
    (5 ∈ ((processElement wEnvC2y wTS wPlan1 [] wDoor wS).2).ignored_tag_types) ∧
    (((viewsLoop wEnv [wDoor] [wPlan1, wPlan2] wSign).2).promptedCats.count 5 =
      wSign.promptedCats.count 5) :=
  ⟨C2_prompt_scope_amended.1 wEnvC2 wTS wPlan1 [] wDoors wDoor [] wS
      (by decide) (by decide) (by decide) (by decide) (by decide) (by decide),
   C2_prompt_scope_amended.2.1 wEnvC2 wPlan1 [wPlan2] [wDoor] wS
      (tag_elements_in_view wEnvC2 wPlan1 [wDoor] wS).2 (by decide),
   C2_prompt_scope_amended.2.2.1 wEnvC2y wTS wPlan1 [] wDoors wDoor wS
      (by decide) (by decide) (by decide) (by decide) (by decide) (by decide),
   C2_prompt_scope_amended.2.2.2 wEnv [wDoor] [wPlan1, wPlan2] wSign 5 (by decide)⟩

/-- C6: cancelling the category- or view-selection dialog ends the run as a
silent no-op — no transaction is opened, no tag is created and the
cancellation is not reported as an error. -/
theorem C6_cancel_selection_silent (env : Env) (s : RunState)
    (hres : ∀ ns, env.catSelection (categoryNamesShown env) = some ns →
      ∀ n ∈ ns, (env.docCategories.find? (fun c => c.name = n)).isSome = true)
    (hcancel : env.catSelection (categoryNamesShown env) = none ∨
      env.viewSelection (viewNamesShown env) = none) :
    (runScript env s).tags = s.tags ∧
    (runScript env s).txnStarts = s.txnStarts ∧
    (runScript env s).generalErrors = s.generalErrors := by
  cases hcs : env.catSelection (categoryNamesShown env) with
  | none => simp [runScript, select_categories, hcs]
  | some ns =>
    have hv : env.viewSelection (viewNamesShown env) = none := by
      rcases hcancel with h | h
      · rw [h] at hcs
        cases hcs
      · exact h
    have hall : ∀ c ∈ ns.map (fun n => env.docCategories.find?
        (fun c => c.name = n)), c.isSome = true := by
      intro c hcmem
      rcases List.mem_map.1 hcmem with ⟨n, hn, rfl⟩
      exact hres ns hcs n hn
    obtain ⟨es, hok⟩ := selectElementsLoop_ok env
      (ns.map (fun n => env.docCategories.find? (fun c => c.name = n))) []
      { s with log := s.log ++
          ["Selected Categories: " ++ String.intercalate ", " ns] } hall
    cases hse : selectElementsLoop env
        (ns.map (fun n => env.docCategories.find? (fun c => c.name = n))) []
        { s with log := s.log ++
            ["Selected Categories: " ++ String.intercalate ", " ns] } with
    | mk r s2 =>
      rw [hse] at hok
      have hr : r = Outcome.ok es := hok
      subst hr
      have hctl := selectElementsLoop_ctl env
        (ns.map (fun n => env.docCategories.find? (fun c => c.name = n))) []
        { s with log := s.log ++
            ["Selected Categories: " ++ String.intercalate ", " ns] }
      rw [hse] at hctl
      simp only [runScript, select_categories, hcs, select_elements, hse,
        select_views, hv]
      exact ⟨hctl.1, hctl.2.1, hctl.2.2⟩

/-- Witness for C6: with the view-selection dialog cancelled after elements
were collected, the run leaves tags, transaction count and error count
untouched. -/
theorem C6_cancel_selection_silent_witness :
    (runScript wEnvC6 wS).tags = wS.tags ∧
    (runScript wEnvC6 wS).txnStarts = wS.txnStarts ∧
    (runScript wEnvC6 wS).generalErrors = wS.generalErrors :=
  C6_cancel_selection_silent wEnvC6 wS
    (fun ns hns => by
      have h2 : some ["Doors"] = some ns := hns
      cases h2
      decide)
    (Or.inr (by decide))
